import Mathlib

/-!
Shallow embedding of the csvpred predicate-query core: the AST node model
and evaluator of `src/query/nodes.py`, the standalone operator executors of
`src/query/exec.py`, and the pyparsing grammar of `src/query/grammar.py`
together with the driver `Parser.parse` of `src/query/parser.py`
(pyparsing 3.1 semantics: `grammar.parse_string(query, parse_all=True)`).

Python scalars are modelled by `PyVal`; Python floats are represented by
exact rationals (IEEE-754 rounding of decimal literals is not modelled; no
theorem below inspects a float value).  Python exceptions that escape the
evaluator are modelled by `PyExn`.
-/

namespace Csvpred

/-- A Python scalar value as it occurs in rows and literals. -/
inductive PyVal where
  | none
  | bool (b : Bool)
  | int (n : Int)
  | float (q : ℚ)
  | str (s : String)
deriving DecidableEq, Repr

/-- A Python exception escaping evaluation (`TypeError`, `ValueError`,
`AttributeError`). -/
inductive PyExn where
  | typeError
  | valueError
  | attributeError
deriving DecidableEq, Repr

/-- Numeric view used by Python cross-type comparisons: `bool` is an `int`
subtype (`True == 1`), `int` and `float` compare by value. -/
def pyToNum : PyVal → Option ℚ
  | .bool b => some (if b then 1 else 0)
  | .int n => some (n : ℚ)
  | .float q => some q
  | _ => Option.none

/-- Python `==` on scalars: numeric values compare by value, strings by
content, `None == None`; any other cross-type pair is unequal. -/
def pyEq (l r : PyVal) : Bool :=
  match pyToNum l, pyToNum r with
  | some a, some b => decide (a = b)
  | _, _ =>
    match l, r with
    | .str a, .str b => decide (a = b)
    | .none, .none => true
    | _, _ => false

/-- Python `<` on scalars: defined for numeric pairs and string pairs
(lexicographic by code point); any other pair raises `TypeError`. -/
def pyLt (l r : PyVal) : Except PyExn Bool :=
  match pyToNum l, pyToNum r with
  | some a, some b => .ok (decide (a < b))
  | _, _ =>
    match l, r with
    | .str a, .str b => .ok (decide (a < b))
    | _, _ => .error .typeError

/-- Python `<=` on scalars. -/
def pyLe (l r : PyVal) : Except PyExn Bool :=
  match pyToNum l, pyToNum r with
  | some a, some b => .ok (decide (a ≤ b))
  | _, _ =>
    match l, r with
    | .str a, .str b => .ok (decide (a ≤ b))
    | _, _ => .error .typeError

/-- Python `>` on scalars. -/
def pyGt (l r : PyVal) : Except PyExn Bool :=
  match pyToNum l, pyToNum r with
  | some a, some b => .ok (decide (b < a))
  | _, _ =>
    match l, r with
    | .str a, .str b => .ok (decide (b < a))
    | _, _ => .error .typeError

/-- Python `>=` on scalars. -/
def pyGe (l r : PyVal) : Except PyExn Bool :=
  match pyToNum l, pyToNum r with
  | some a, some b => .ok (decide (b ≤ a))
  | _, _ =>
    match l, r with
    | .str a, .str b => .ok (decide (b ≤ a))
    | _, _ => .error .typeError

/-- Python truthiness of a scalar (`bool(v)`). -/
def pyTruthy : PyVal → Bool
  | .none => false
  | .bool b => b
  | .int n => decide (n ≠ 0)
  | .float q => decide (q ≠ 0)
  | .str s => decide (s ≠ "")

/-- Python `^` on scalars: boolean xor on two bools, bitwise xor on
integers (bools coerce to 0/1); anything else raises `TypeError`. -/
def pyXor (l r : PyVal) : Except PyExn PyVal :=
  match l, r with
  | .bool a, .bool b => .ok (.bool (xor a b))
  | .bool a, .int b => .ok (.int (Int.xor (if a then 1 else 0) b))
  | .int a, .bool b => .ok (.int (Int.xor a (if b then 1 else 0)))
  | .int a, .int b => .ok (.int (Int.xor a b))
  | _, _ => .error .typeError

/-- `Comparison.apply` of `src/query/nodes.py` (lines 177-195): dispatch on
the operator string, falling through to `ValueError` for an unknown
operator. -/
def Comparison_apply (operator : String) (left right : PyVal) : Except PyExn PyVal :=
  if operator = "==" then .ok (.bool (pyEq left right))
  else if operator = "!=" then .ok (.bool (!pyEq left right))
  else if operator = "<" then (pyLt left right).map .bool
  else if operator = "<=" then (pyLe left right).map .bool
  else if operator = ">" then (pyGt left right).map .bool
  else if operator = ">=" then (pyGe left right).map .bool
  else .error .valueError

/-- `exec_cmp_operator` of `src/query/exec.py` (lines 28-46): the standalone
comparison-operator executor. -/
def exec_cmp_operator (operator : String) (left right : PyVal) : Except PyExn PyVal :=
  if operator = "==" then .ok (.bool (pyEq left right))
  else if operator = "!=" then .ok (.bool (!pyEq left right))
  else if operator = "<" then (pyLt left right).map .bool
  else if operator = "<=" then (pyLe left right).map .bool
  else if operator = ">" then (pyGt left right).map .bool
  else if operator = ">=" then (pyGe left right).map .bool
  else .error .valueError

/-- `BinaryExpression.apply` of `src/query/nodes.py` (lines 349-361): the
operator is lowercased, then `and`/`&&` use Python `and`, `or`/`||` use
Python `or`, `xor`/`^` use Python `^`; anything else is `ValueError`. -/
def BinaryExpression_apply (operator : String) (left right : PyVal) : Except PyExn PyVal :=
  let op := String.mk (operator.data.map Char.toLower)
  if op = "and" ∨ op = "&&" then .ok (if pyTruthy left then right else left)
  else if op = "or" ∨ op = "||" then .ok (if pyTruthy left then left else right)
  else if op = "xor" ∨ op = "^" then pyXor left right
  else .error .valueError

/-- `NegateExpression.apply` of `src/query/nodes.py` (lines 301-308):
`not`/`!` return the truthiness complement, else `ValueError`. -/
def NegateExpression_apply (operator : String) (right : PyVal) : Except PyExn PyVal :=
  if operator = "not" ∨ operator = "!" then .ok (.bool (!pyTruthy right))
  else .error .valueError

/-- The AST node model of `src/query/nodes.py`.  Each constructor mirrors
one `ASTNode` subclass and carries exactly the fields its `__init__`
stores; `group` stands for a raw pyparsing `ParseResults` list (produced by
the `infix_notation` levels, which have no parse action). -/
inductive PNode where
  | grammar (exprs : PNode)
  | expression (exprs : PNode)
  | identifier (value : PNode)
  | comparison (ident oper value : PNode)
  | cmpOperator (operator : String)
  | boolUnaryOperator (operator : String)
  | negateExpression (expr : PNode)
  | binaryExpression (left oper right : PNode)
  | boolBinaryOperator (operator : String)
  | literalValue (value : PyVal)
  | attr (name : String)
  | group (items : List PNode)
deriving Repr

/-- A row: a mapping from column name to scalar, as handed to `evaluate`. -/
def Row := List (String × PyVal)

/-- Python dict lookup `row[name]` as an option (keys are unique). -/
def rowLookup : Row → String → Option PyVal
  | [], _ => Option.none
  | (k, v) :: rest, name => if k = name then some v else rowLookup rest name

/-- Calling `node.evaluate()` with no row argument, as `Comparison.evaluate`
and `BinaryExpression.evaluate` do on their operator and literal children:
`LiteralValue` returns its value, the three operator classes return their
operator string; every other class's `evaluate` requires a row argument, so
the call raises `TypeError`. -/
def evalNoRow : PNode → Except PyExn PyVal
  | .literalValue v => .ok v
  | .cmpOperator s => .ok (.str s)
  | .boolUnaryOperator s => .ok (.str s)
  | .boolBinaryOperator s => .ok (.str s)
  | _ => .error .typeError

/-- `node.evaluate(row)` of `src/query/nodes.py`, dispatched over the node
class exactly as the per-class `evaluate` methods do.  Notably
`Attribute.evaluate` (lines 435-444) catches the `KeyError` of a missing
column, prints a diagnostic to stderr (not modelled) and returns `None`. -/
def evaluate : PNode → Row → Except PyExn PyVal
  | .grammar e, row =>
    match e with
    | .expression e2 => evaluate (.expression e2) row
    | _ => .error .valueError
  | .expression e, row =>
    match e with
    | .expression e2 => evaluate (.expression e2) row
    | .negateExpression e2 => evaluate (.negateExpression e2) row
    | .binaryExpression a b c => evaluate (.binaryExpression a b c) row
    | .comparison a b c => evaluate (.comparison a b c) row
    | .identifier v => evaluate (.identifier v) row
    | _ => .error .valueError
  | .identifier v, row =>
    match v with
    | .attr name => evaluate (.attr name) row
    | _ => .error .valueError
  | .attr name, row =>
    match rowLookup row name with
    | some v => .ok v
    | Option.none => .ok .none
  | .comparison ident oper value, row => do
    let left ← evaluate ident row
    let operV ← evalNoRow oper
    let right ← evalNoRow value
    match operV with
    | .str op => Comparison_apply op left right
    | _ => .error .valueError
  | .negateExpression e, row => do
    let right ← evaluate e row
    NegateExpression_apply "not" right
  | .binaryExpression l oper r, row => do
    let left ← evaluate l row
    let operV ← evalNoRow oper
    let right ← evaluate r row
    match operV with
    | .str op => BinaryExpression_apply op left right
    | _ => .error .attributeError
  | .cmpOperator _, _ => .error .typeError
  | .boolUnaryOperator _, _ => .error .typeError
  | .boolBinaryOperator _, _ => .error .typeError
  | .literalValue _, _ => .error .typeError
  | .group _, _ => .error .attributeError

/-- `NegateExpression.parse` of `src/query/nodes.py` (lines 278-296),
applied to the matched token group: `value[0]` must be a
`BoolUnaryOperator` whose operator is `NOT` or `!`, otherwise construction
raises `ValueError`; on success the node wraps `value[1]`. -/
def NegateExpression_parse (toks : List PNode) : Except String PNode :=
  match toks with
  | [] => .error "IndexError"
  | op :: rest =>
    match op with
    | .boolUnaryOperator s =>
      if s = "NOT" ∨ s = "!" then
        match rest with
        | e :: _ => .ok (.negateExpression e)
        | [] => .error "IndexError"
      else .error "Expected a BoolUnaryOperator"
    | _ => .error "Expected a BoolUnaryOperator"

/-!
The parser.  `src/query/grammar.py` builds a pyparsing PEG; the embedding
below is a recursive-descent parser over a character list mirroring that
grammar rule by rule under pyparsing 3.1 semantics: whitespace (space, tab,
newline) is skipped before every leaf token; alternation is ordered choice
keeping the failure of greatest location; `Opt` swallows parse failures;
`infix_notation` expands to one level per operator with a `FollowedBy`
lookahead that runs without parse actions (`doActions = False`).  A parse
failure carries its location; `inInput = false` marks the `ParseException`
pyparsing raises when a parse action raises `IndexError` (its `pstr` is the
exception message, not the input, and its location is 0).  `crash` marks a
Python error that pyparsing does not catch (the `ValueError` of
`NegateExpression.parse`).
-/

/-- pyparsing default whitespace characters (space, newline, tab). -/
def isWsChar (c : Char) : Bool := c = ' ' || c = '\t' || c = '\n'

/-- Number of leading whitespace characters. -/
def wsCount : List Char → Nat
  | [] => 0
  | c :: rest => if isWsChar c then wsCount rest + 1 else 0

/-- Skip whitespace from position `i` (pyparsing `preParse`). -/
def skipWs (cs : List Char) (i : Nat) : Nat := i + wsCount (cs.drop i)

/-- A pyparsing `ParseException`: location, whether its `pstr` is the input
string, and whether it is really an uncaught Python error. -/
structure PErr where
  loc : Nat
  inInput : Bool
  crash : Bool
deriving Repr

/-- Result of a parser element: new location and value, or failure. -/
abbrev PRes (α : Type) := Except PErr (Nat × α)

/-- `MatchFirst` failure bookkeeping: keep the failure of the strictly
greatest location, earlier alternative winning ties. -/
def pickErr (e1 e2 : PErr) : PErr := if e2.loc > e1.loc then e2 else e1

/-- Does `cs` continue with `lit` at position `i`? -/
def strAt (cs : List Char) (i : Nat) : List Char → Bool
  | [] => true
  | c :: rest =>
    match cs.get? i with
    | some d => d = c && strAt cs (i + 1) rest
    | Option.none => false

/-- Case-insensitive variant of `strAt`. -/
def strAtCaseless (cs : List Char) (i : Nat) : List Char → Bool
  | [] => true
  | c :: rest =>
    match cs.get? i with
    | some d => d.toUpper = c.toUpper && strAtCaseless cs (i + 1) rest
    | Option.none => false

/-- `Keyword.identChars`: alphanumerics plus `_` and `$`. -/
def isKwChar (c : Char) : Bool := c.isAlphanum || c = '_' || c = '$'

/-- `CaselessKeyword(kw)`: match `kw` case-insensitively with word
boundaries on both sides, returning the keyword as defined. -/
def caselessKeyword (cs : List Char) (i : Nat) (kw : String) : PRes String :=
  let j := skipWs cs i
  let k := kw.data
  if strAtCaseless cs j k
      && (j = 0 || !(match cs.get? (j - 1) with
                     | some c => isKwChar c
                     | Option.none => false))
      && (match cs.get? (j + k.length) with
          | some c => !isKwChar c
          | Option.none => true) then
    .ok (j + k.length, kw)
  else .error ⟨j, true, false⟩

/-- Ordered choice over caseless keywords (a `MatchFirst` of
`CaselessKeyword`s, as in the boolean-operator rules). -/
def firstKeyword (cs : List Char) (i : Nat) : List String → PRes String
  | [] => .error ⟨skipWs cs i, true, false⟩
  | kw :: rest =>
    match caselessKeyword cs i kw with
    | .ok r => .ok r
    | .error e1 =>
      match firstKeyword cs i rest with
      | .ok r => .ok r
      | .error e2 => .error (pickErr e1 e2)

/-- Number of leading characters satisfying `p`. -/
def takeCount (p : Char → Bool) : List Char → Nat
  | [] => 0
  | c :: rest => if p c then takeCount p rest + 1 else 0

/-- Number of consecutive decimal digits starting at `j`. -/
def digitsCount (cs : List Char) (j : Nat) : Nat := takeCount Char.isDigit (cs.drop j)

/-- Optional `[+-]` sign at `j`: position after it and whether negative. -/
def signAt (cs : List Char) (j : Nat) : Nat × Bool :=
  match cs.get? j with
  | some c => if c = '-' then (j + 1, true) else if c = '+' then (j + 1, false) else (j, false)
  | Option.none => (j, false)

/-- Numeric value of a digit string. -/
def natOfDigits (ds : List Char) : Nat :=
  ds.foldl (fun a c => a * 10 + (c.toNat - 48)) 0

/-- The `integer` regex `[+-]?\d+` with Python `int` conversion. -/
def integerTok (cs : List Char) (i : Nat) : PRes Int :=
  let j := skipWs cs i
  let (j1, neg) := signAt cs j
  let n := digitsCount cs j1
  if n = 0 then .error ⟨j, true, false⟩
  else
    let v : Int := natOfDigits ((cs.drop j1).take n)
    .ok (j1 + n, if neg then -v else v)

/-- The `float` regex `[+-]?\d+\.\d*([Ee][+-]?\d+)?` with (exact
decimal-valued) `float` conversion. -/
def floatTok (cs : List Char) (i : Nat) : PRes ℚ :=
  let j := skipWs cs i
  let (j1, neg) := signAt cs j
  let n1 := digitsCount cs j1
  if n1 = 0 then .error ⟨j, true, false⟩
  else if cs.get? (j1 + n1) ≠ some '.' then .error ⟨j, true, false⟩
  else
    let p := j1 + n1 + 1
    let n2 := digitsCount cs p
    let q0 := p + n2
    let mant : ℚ := (natOfDigits ((cs.drop j1).take n1 ++ (cs.drop p).take n2) : ℚ) / (10 ^ n2 : ℕ)
    let noExp : Nat × ℚ := (q0, if neg then -mant else mant)
    match cs.get? q0 with
    | some c =>
      if c = 'e' || c = 'E' then
        let (q1, eneg) := signAt cs (q0 + 1)
        let n3 := digitsCount cs q1
        if n3 = 0 then .ok noExp
        else
          let e := natOfDigits ((cs.drop q1).take n3)
          let scaled : ℚ := if eneg then mant / (10 ^ e : ℕ) else mant * (10 ^ e : ℕ)
          .ok (q1 + n3, if neg then -scaled else scaled)
      else .ok noExp
    | Option.none => .ok noExp

/-- Scan the body of a double-quoted string: characters up to the closing
quote (no escapes, no newlines), returning consumed length including the
closing quote, and the content. -/
def scanQuoted : List Char → Option (Nat × List Char)
  | [] => Option.none
  | c :: rest =>
    if c = '"' then some (1, [])
    else if c = '\n' || c = '\r' then Option.none
    else
      match scanQuoted rest with
      | some (n, content) => some (n + 1, c :: content)
      | Option.none => Option.none

/-- `literal_string`: `QuotedString('"')` or else the unquoted word
`Word(alphas + "_", alphanums + "_")`. -/
def literalStringTok (cs : List Char) (i : Nat) : PRes String :=
  let j := skipWs cs i
  let quoted : Option (Nat × String) :=
    if cs.get? j = some '"' then
      match scanQuoted (cs.drop (j + 1)) with
      | some (n, content) => some (j + 1 + n, String.mk content)
      | Option.none => Option.none
    else Option.none
  match quoted with
  | some r => .ok r
  | Option.none =>
    match cs.get? j with
    | some c =>
      if c.isAlpha || c = '_' then
        let n := takeCount (fun d => d.isAlphanum || d = '_') (cs.drop (j + 1))
        .ok (j + 1 + n, String.mk ((cs.drop j).take (n + 1)))
      else .error ⟨j, true, false⟩
    | Option.none => .error ⟨j, true, false⟩

/-- `literal_value`: float, else integer, else string, wrapped by
`LiteralValue.parse`. -/
def literalValueTok (cs : List Char) (i : Nat) : PRes PNode :=
  match floatTok cs i with
  | .ok (j, q) => .ok (j, .literalValue (.float q))
  | .error e1 =>
    match integerTok cs i with
    | .ok (j, n) => .ok (j, .literalValue (.int n))
    | .error e2 =>
      match literalStringTok cs i with
      | .ok (j, s) => .ok (j, .literalValue (.str s))
      | .error e3 => .error (pickErr (pickErr e1 e2) e3)

/-- `cmp_operator`: `one_of` over the six comparison tokens (longest first
among prefix-sharing alternatives), wrapped by `CmpOperator.parse`. -/
def cmpOperatorTok (cs : List Char) (i : Nat) : PRes PNode :=
  let j := skipWs cs i
  let rec try_ : List String → Option (Nat × String)
    | [] => Option.none
    | op :: rest => if strAt cs j op.data then some (j + op.data.length, op) else try_ rest
  match try_ ["!=", "==", "<=", ">=", "<", ">"] with
  | some (p, op) => .ok (p, .cmpOperator op)
  | Option.none => .error ⟨j, true, false⟩

/-- `attribute`: a suppressed `.` followed by `literal_string`, wrapped by
`Attribute.parse`. -/
def attributeTok (cs : List Char) (i : Nat) : PRes PNode :=
  let j := skipWs cs i
  if cs.get? j = some '.' then
    match literalStringTok cs (j + 1) with
    | .ok (p, name) => .ok (p, .attr name)
    | .error e => .error e
  else .error ⟨j, true, false⟩

/-- `identifier`: a grouped `attribute`, wrapped by `Identifier.parse`. -/
def identifierTok (cs : List Char) (i : Nat) : PRes PNode :=
  match attributeTok cs i with
  | .ok (p, a) => .ok (p, .identifier a)
  | .error e => .error e

/-- `bool_unary_operator`: `NOT` or `!`, wrapped by
`BoolUnaryOperator.parse`. -/
def boolUnaryOperatorTok (cs : List Char) (i : Nat) : PRes PNode :=
  match firstKeyword cs i ["NOT", "!"] with
  | .ok (p, kw) => .ok (p, .boolUnaryOperator kw)
  | .error e => .error e

/-- `bool_binary_operator`: one of the six binary keywords, wrapped by
`BoolBinaryOperator.parse` (which stores the whole matched keyword, since
its tokens arrive grouped). -/
def boolBinaryOperatorTok (cs : List Char) (i : Nat) : PRes PNode :=
  match firstKeyword cs i ["AND", "&&", "OR", "||", "XOR", "^"] with
  | .ok (p, kw) => .ok (p, .boolBinaryOperator kw)
  | .error e => .error e

/-- `comparison`: `identifier + cmp_operator + literal_value`, wrapped by
`Comparison.parse`. -/
def comparisonTok (cs : List Char) (i : Nat) : PRes PNode :=
  match identifierTok cs i with
  | .error e => .error e
  | .ok (i1, idn) =>
    match cmpOperatorTok cs i1 with
    | .error e => .error e
    | .ok (i2, opn) =>
      match literalValueTok cs i2 with
      | .error e => .error e
      | .ok (i3, vn) => .ok (i3, .comparison idn opn vn)

/-- `binary_expression`: `comparison + bool_binary_operator + comparison`,
wrapped by `BinaryExpression.parse`. -/
def binaryExpressionTok (cs : List Char) (i : Nat) : PRes PNode :=
  match comparisonTok cs i with
  | .error e => .error e
  | .ok (i1, l) =>
    match boolBinaryOperatorTok cs i1 with
    | .error e => .error e
    | .ok (i2, o) =>
      match comparisonTok cs i2 with
      | .error e => .error e
      | .ok (i3, r) => .ok (i3, .binaryExpression l o r)

/-- One `Opt(...)` step of the `expression` sequence: parse failures are
swallowed (keeping position and tokens), uncaught Python errors propagate. -/
def optStep (st : Nat × List PNode) (p : Nat → PRes PNode) : Except PErr (Nat × List PNode) :=
  match p st.1 with
  | .ok (j, t) => .ok (j, st.2 ++ [t])
  | .error e => if e.crash then .error e else .ok st

/-- The recursive grammar rules, one closure per pyparsing rule, built by
recursion on a fuel bound (each nested rule invocation steps to the next
lower level; the top-level fuel in `pyparseList` is ample for any input,
since every descent either consumes a character or moves to a structurally
lower rule).  `expr` is the `expression` rule; `negate` is
`negate_expression`; `parenE` is the parenthesized alternative inside
`expression`; `lastE` is `infix_notation`'s operand `expression | (lpar +
ret + rpar)`; `parenR` is that parenthesized `ret`; `andL`/`orL`/`xorL`
are the three `infix_notation` levels with `andMore`/`orMore`/`xorMore`
their `OneOrMore` tails.  Every rule takes pyparsing's `doActions` flag
(false inside `FollowedBy` lookaheads) and the current position. -/
structure RuleSet where
  expr : Bool → Nat → PRes PNode
  negate : Bool → Nat → PRes PNode
  parenE : Bool → Nat → PRes PNode
  lastE : Bool → Nat → PRes PNode
  parenR : Bool → Nat → PRes PNode
  andL : Bool → Nat → PRes PNode
  andMore : Bool → Nat → Except PErr (Nat × List PNode)
  orL : Bool → Nat → PRes PNode
  orMore : Bool → Nat → Except PErr (Nat × List PNode)
  xorL : Bool → Nat → PRes PNode
  xorMore : Bool → Nat → Except PErr (Nat × List PNode)

/-- One `infix_notation` level: `thisExpr = (FollowedBy(sub + op + sub) +
Group(sub + OneOrMore(op + sub))) | sub`; the lookahead runs with
`doActions = False`; the operator's parse action `BoolBinaryOperator.parse`
receives the bare keyword string, so it stores only its first character. -/
def opLevel (cs : List Char) (ops : List String)
    (sub : Bool → Nat → PRes PNode)
    (more : Bool → Nat → Except PErr (Nat × List PNode))
    (da : Bool) (i : Nat) : PRes PNode :=
  let fb : Except PErr Unit :=
    match sub false i with
    | .error e => .error e
    | .ok (i1, _) =>
      match firstKeyword cs i1 ops with
      | .error e => .error e
      | .ok (i2, _) =>
        match sub false i2 with
        | .error e => .error e
        | .ok _ => .ok ()
  let matched : PRes PNode :=
    match fb with
    | .error e => .error e
    | .ok _ =>
      match sub da i with
      | .error e => .error e
      | .ok (i1, t0) =>
        match firstKeyword cs i1 ops with
        | .error e => .error e
        | .ok (i2, kw1) =>
          match sub da i2 with
          | .error e => .error e
          | .ok (i3, t1) =>
            match more da i3 with
            | .error e => .error e
            | .ok (i4, rest) =>
              .ok (i4, PNode.group ([t0, PNode.boolBinaryOperator (String.mk (kw1.data.take 1)), t1] ++ rest))
  match matched with
  | .ok r => .ok r
  | .error e =>
    if e.crash then .error e
    else
      match sub da i with
      | .ok r => .ok r
      | .error e2 => if e2.crash then .error e2 else .error (pickErr e e2)

/-- One step of an `infix_notation` level's `OneOrMore(op + sub)` tail:
a further `op + sub` repetition, or stop on a (non-crash) failure. -/
def opMoreStep (cs : List Char) (ops : List String)
    (sub : Bool → Nat → PRes PNode)
    (more : Bool → Nat → Except PErr (Nat × List PNode))
    (da : Bool) (i : Nat) : Except PErr (Nat × List PNode) :=
  let one : Except PErr (Nat × List PNode) :=
    match firstKeyword cs i ops with
    | .error e => .error e
    | .ok (i1, kw) =>
      match sub da i1 with
      | .error e => .error e
      | .ok (i2, t) => .ok (i2, [PNode.boolBinaryOperator (String.mk (kw.data.take 1)), t])
  match one with
  | .ok (i2, pair) =>
    match more da i2 with
    | .error e => .error e
    | .ok (i3, rest) => .ok (i3, pair ++ rest)
  | .error e => if e.crash then .error e else .ok (i, [])

/-- The fuel-indexed tower of grammar rules.  At fuel 0 every rule fails at
its position (never reached from `pyparseList`, whose fuel exceeds any
possible rule-nesting depth); at fuel `n + 1` each rule body is the literal
transcription of its `src/query/grammar.py` counterpart, with nested rules
taken from level `n`. -/
def rulesAux (cs : List Char) : Nat → RuleSet
  | 0 =>
    { expr := fun _ i => .error ⟨i, true, false⟩
      negate := fun _ i => .error ⟨i, true, false⟩
      parenE := fun _ i => .error ⟨i, true, false⟩
      lastE := fun _ i => .error ⟨i, true, false⟩
      parenR := fun _ i => .error ⟨i, true, false⟩
      andL := fun _ i => .error ⟨i, true, false⟩
      andMore := fun _ i => .ok (i, [])
      orL := fun _ i => .error ⟨i, true, false⟩
      orMore := fun _ i => .ok (i, [])
      xorL := fun _ i => .error ⟨i, true, false⟩
      xorMore := fun _ i => .ok (i, []) }
  | fuel + 1 =>
    let p := rulesAux cs fuel
    { expr := fun da i =>
        -- expression: seven Opt(...) alternatives in sequence, then the
        -- Expression.parse action (tokens[0]; IndexError when no tokens)
        match optStep (i, []) (binaryExpressionTok cs) with
        | .error e => .error e
        | .ok s1 =>
          match optStep s1 (p.negate da) with
          | .error e => .error e
          | .ok s2 =>
            match optStep s2 (comparisonTok cs) with
            | .error e => .error e
            | .ok s3 =>
              match optStep s3 (p.parenE da) with
              | .error e => .error e
              | .ok s4 =>
                match optStep s4 (identifierTok cs) with
                | .error e => .error e
                | .ok s5 =>
                  match optStep s5 (attributeTok cs) with
                  | .error e => .error e
                  | .ok s6 =>
                    match optStep s6 (literalValueTok cs) with
                    | .error e => .error e
                    | .ok s7 =>
                      match s7.2 with
                      | t :: _ => .ok (s7.1, PNode.expression t)
                      | [] =>
                        if da then .error ⟨0, false, false⟩
                        else .ok (s7.1, PNode.expression (PNode.group []))
      negate := fun da i =>
        -- negate_expression: bool_unary_operator + expression, with the
        -- validating NegateExpression.parse action (ValueError = crash)
        match boolUnaryOperatorTok cs i with
        | .error e => .error e
        | .ok (i1, opn) =>
          match p.expr da i1 with
          | .error e => .error e
          | .ok (i2, en) =>
            if da then
              match NegateExpression_parse [opn, en] with
              | .ok n => .ok (i2, n)
              | .error _ => .error ⟨0, false, true⟩
            else .ok (i2, PNode.negateExpression en)
      parenE := fun da i =>
        -- Suppress("(") + expression + Suppress(")")
        let j := skipWs cs i
        if cs.get? j = some '(' then
          match p.expr da (j + 1) with
          | .error e => .error e
          | .ok (i1, t) =>
            let j2 := skipWs cs i1
            if cs.get? j2 = some ')' then .ok (j2 + 1, t)
            else .error ⟨j2, true, false⟩
        else .error ⟨j, true, false⟩
      lastE := fun da i =>
        -- infix_notation operand: expression | (lpar + ret + rpar)
        match p.expr da i with
        | .ok r => .ok r
        | .error e1 =>
          if e1.crash then .error e1
          else
            match p.parenR da i with
            | .ok r => .ok r
            | .error e2 => if e2.crash then .error e2 else .error (pickErr e1 e2)
      parenR := fun da i =>
        -- Suppress("(") + ret + Suppress(")")
        let j := skipWs cs i
        if cs.get? j = some '(' then
          match p.xorL da (j + 1) with
          | .error e => .error e
          | .ok (i1, t) =>
            let j2 := skipWs cs i1
            if cs.get? j2 = some ')' then .ok (j2 + 1, t)
            else .error ⟨j2, true, false⟩
        else .error ⟨j, true, false⟩
      andL := fun da i => opLevel cs ["AND", "&&"] p.lastE p.andMore da i
      andMore := fun da i => opMoreStep cs ["AND", "&&"] p.lastE p.andMore da i
      orL := fun da i => opLevel cs ["OR", "||"] p.andL p.orMore da i
      orMore := fun da i => opMoreStep cs ["OR", "||"] p.andL p.orMore da i
      xorL := fun da i => opLevel cs ["XOR", "^"] p.orL p.xorMore da i
      xorMore := fun da i => opMoreStep cs ["XOR", "^"] p.orL p.xorMore da i }

/-- The `expression` rule at a given fuel level. -/
def expressionRule (cs : List Char) (da : Bool) (fuel i : Nat) : PRes PNode :=
  (rulesAux cs fuel).expr da i

/-- The `bool_unary_operator`-validated `negate_expression` rule. -/
def negateExpressionRule (cs : List Char) (da : Bool) (fuel i : Nat) : PRes PNode :=
  (rulesAux cs fuel).negate da i

/-- The whole `infix_notation` expression (`ret`), i.e. its `XOR` level. -/
def retRule (cs : List Char) (da : Bool) (fuel i : Nat) : PRes PNode :=
  (rulesAux cs fuel).xorL da i


/-- The top-level `grammar` rule: the `infix_notation` expression with the
`Grammar.parse` action (`tokens[0]`). -/
def grammarRule (cs : List Char) (fuel i : Nat) : PRes PNode :=
  match retRule cs true fuel i with
  | .ok (j, t) => .ok (j, PNode.grammar t)
  | .error e => .error e

/-- Index of the last newline strictly before `loc` (`-1` when none), as
pyparsing's `col` helper computes it with `rfind`. -/
def rfindNewline (cs : List Char) (loc : Nat) : Int :=
  let rec go : List Char → Nat → Int → Int
    | [], _, best => best
    | c :: rest, idx, best => go rest (idx + 1) (if c = '\n' then (idx : Int) else best)
  go (cs.take loc) 0 (-1)

/-- Index of the first newline at or after `loc`, when any. -/
def findNewlineFrom (cs : List Char) (loc : Nat) : Option Nat :=
  let rec go : List Char → Nat → Option Nat
    | [], _ => Option.none
    | c :: rest, idx => if c = '\n' then some idx else go rest (idx + 1)
  go (cs.drop loc) loc

/-- pyparsing `col(loc, strg)`: 1-based column of `loc`. -/
def colOf (cs : List Char) (loc : Nat) : Nat :=
  if 0 < loc ∧ loc < cs.length ∧ cs.get? (loc - 1) = some '\n' then 1
  else ((loc : Int) - rfindNewline cs loc).toNat

/-- pyparsing `lineno(loc, strg)`: 1-based line number of `loc`. -/
def linenoOf (cs : List Char) (loc : Nat) : Nat :=
  ((cs.take loc).filter (fun c => c = '\n')).length + 1

/-- pyparsing `line(loc, strg)`: the text of the line containing `loc`. -/
def lineTextOf (cs : List Char) (loc : Nat) : List Char :=
  let start := ((rfindNewline cs loc) + 1).toNat
  match findNewlineFrom cs loc with
  | some k => (cs.take k).drop start
  | Option.none => cs.drop start

/-- Python `str.strip()` whitespace characters. -/
def isPySpace (c : Char) : Bool :=
  c = ' ' || c = '\t' || c = '\n' || c = '\r' || c = '\x0b' || c = '\x0c'

/-- `ParseBaseException.markInputline()`: the offending line with `>!<`
inserted before the error column, stripped of surrounding whitespace. -/
def markInputlineOf (cs : List Char) (loc : Nat) : String :=
  let lineStr := lineTextOf cs loc
  let c := colOf cs loc - 1
  let marked := lineStr.take c ++ '>' :: '!' :: '<' :: lineStr.drop c
  String.mk (((marked.dropWhile isPySpace).reverse.dropWhile isPySpace).reverse)

/-- The outcome of `Parser.parse` (`src/query/parser.py`, lines 29-40): the
AST, or a `ParserException` carrying the 1-based line (`row`), 1-based
`column` and `mark_input_line` of the underlying `ParseException`, or an
uncaught Python error. -/
inductive ParseOutcome where
  | ok (ast : PNode)
  | syntaxError (row col : Nat) (markInputLine : String)
  | pythonError
deriving Repr

/-- `grammar.parse_string(query, parse_all=True)` wrapped by
`Parser.parse`: run the grammar from position 0, then require only
whitespace to remain (`Empty() + StringEnd()`), reporting "expected end of
text" at the first unconsumed non-whitespace character; a grammar failure
is reported at its recorded location (against the input string when the
exception's `pstr` is the input, else against the exception's message
text, which yields line 1 column 1). -/
def pyparseList (cs : List Char) : ParseOutcome :=
  let fuel := cs.length + 10
  match grammarRule cs fuel 0 with
  | .ok (loc, ast) =>
    let l2 := skipWs cs loc
    if l2 = cs.length then .ok ast
    else .syntaxError (linenoOf cs l2) (colOf cs l2) (markInputlineOf cs l2)
  | .error e =>
    if e.crash then .pythonError
    else
      let p := if e.inInput then cs else []
      .syntaxError (linenoOf p e.loc) (colOf p e.loc) (markInputlineOf p e.loc)

/-- Parse a query string, as `Parser(query).parse()` does. -/
def pyparse (s : String) : ParseOutcome := pyparseList s.data

/-- Abbreviation for the comparison tree `.name OP literal`. -/
def cmpNode (name op : String) (v : PyVal) : PNode :=
  .comparison (.identifier (.attr name)) (.cmpOperator op) (.literalValue v)

/-- A single-quote character (`'`), used to spell the single-quoted query
literals of the test suite. -/
def sq : String := String.singleton (Char.ofNat 39)

/-!  Theorems about the embedded program, one per claim.  -/

/-- C2: the grammar's `quoted_string` is `pp.QuotedString('"')` only, so a
single-quoted literal is a syntax error even though the repository's own
tests (`test_single_quoted_string_literal`, `test_empty_single_quoted_string`)
expect it to parse; the double-quoted and bare-word forms do parse to a
`LiteralValue` holding `"hello"`.  This theorem records the code's actual
behavior on all four queries of the claim. -/
theorem single_quoted_literals_rejected :
    pyparse (".name == " ++ sq ++ "hello" ++ sq) =
      .syntaxError 1 7 (".name >!<== " ++ sq ++ "hello" ++ sq) ∧
    pyparse (".name == " ++ sq ++ sq) = .syntaxError 1 7 (".name >!<== " ++ sq ++ sq) ∧
    pyparse ".name == \"hello\"" =
      .ok (.grammar (.expression (cmpNode "name" "==" (.str "hello")))) ∧
    pyparse ".name == hello" =
      .ok (.grammar (.expression (cmpNode "name" "==" (.str "hello")))) := by
  exact ⟨rfl, rfl, rfl, rfl⟩

/-- C3: parsing `.123 == 0.5` and `.+avg == 0.5` both fail, and the
`ParserException` reports line 1, column 1 in both cases (the grammar
failure is recorded at location 0). -/
theorem invalid_attribute_start_errors :
    pyparse ".123 == 0.5" = .syntaxError 1 1 ">!<.123 == 0.5" ∧
    pyparse ".+avg == 0.5" = .syntaxError 1 1 ">!<.+avg == 0.5" := ⟨rfl, rfl⟩

/-- C4 counterexample: `.a==1 AND .b==2 OR .c==3` does not parse at all
(the dangling `OR` is swallowed as a bare-word literal by `expression` and
the remaining `.c==3` triggers the expected-end-of-text error at column
20), and `NOT .a==1 AND .b==2` parses with the negation applied to the
whole conjunction, not to the first comparison only. -/
theorem precedence_claim_fails :
    pyparse ".a==1 AND .b==2 OR .c==3" =
      .syntaxError 1 20 ".a==1 AND .b==2 OR >!<.c==3" ∧
    pyparse "NOT .a==1 AND .b==2" =
      .ok (.grammar (.expression (.negateExpression (.expression
        (.binaryExpression (cmpNode "a" "==" (.int 1)) (.boolBinaryOperator "AND")
          (cmpNode "b" "==" (.int 2))))))) := ⟨rfl, rfl⟩

/-- C4 (amended): `binary_expression` combines exactly two comparisons, so
`.a==1 AND .b==2` parses to a `BinaryExpression` of the two comparisons;
the mixed chain `.a==1 AND .b==2 OR .c==3` is a syntax error at line 1
column 20; and `NOT` binds the whole following expression, so
`NOT .a==1 AND .b==2` parses as `NOT (.a==1 AND .b==2)`. -/
theorem actual_operator_structure :
    pyparse ".a==1 AND .b==2" =
      .ok (.grammar (.expression
        (.binaryExpression (cmpNode "a" "==" (.int 1)) (.boolBinaryOperator "AND")
          (cmpNode "b" "==" (.int 2))))) ∧
    pyparse ".a==1 AND .b==2 OR .c==3" =
      .syntaxError 1 20 ".a==1 AND .b==2 OR >!<.c==3" ∧
    pyparse "NOT .a==1 AND .b==2" =
      .ok (.grammar (.expression (.negateExpression (.expression
        (.binaryExpression (cmpNode "a" "==" (.int 1)) (.boolBinaryOperator "AND")
          (cmpNode "b" "==" (.int 2))))))) := ⟨rfl, rfl, rfl⟩

/-- C6: parsing `.avg = 0.5` fails with a syntax error at line 1, column 6
(the position of the lone `=`, which is not a comparison operator), and the
error carries the marked rendering of the offending input line. -/
theorem single_eq_error_position :
    pyparse ".avg = 0.5" = .syntaxError 1 6 ".avg >!<= 0.5" := rfl

/-- C1 counterexample: evaluating an `Attribute` whose column is absent
returns `None` successfully (no evaluation error is surfaced), and an
equality comparison on the missing column then evaluates to `false`, so a
missing column is indistinguishable from a mismatching value. -/
theorem missing_column_not_an_error :
    evaluate (.attr "name") ([] : Row) = .ok .none ∧
    evaluate (cmpNode "name" "==" (.str "hello")) [("age", .int 3)] = .ok (.bool false) :=
  ⟨rfl, rfl⟩

/-- C1 (amended): `Attribute.evaluate` catches the `KeyError` of a missing
column, prints a diagnostic to stderr and returns `None` instead of
raising; an `==` comparison against the missing column therefore returns
`false`, and only an ordered comparison (here `<` against an integer
literal) raises a `TypeError`. -/
theorem missing_column_evaluation (row : Row) (name lit : String) (k : Int)
    (h : rowLookup row name = Option.none) :
    evaluate (.attr name) row = .ok .none ∧
    evaluate (cmpNode name "==" (.str lit)) row = .ok (.bool false) ∧
    evaluate (cmpNode name "<" (.int k)) row = .error .typeError := by
  refine ⟨?_, ?_, ?_⟩
  · simp [evaluate, h]
  · simp only [evaluate, cmpNode, evalNoRow, h]
    rfl
  · simp only [evaluate, cmpNode, evalNoRow, h]
    rfl

/-- Witness for `missing_column_evaluation` at the row `{age: 3}` and the
column `name`. -/
theorem missing_column_evaluation_witness :
    evaluate (.attr "name") [("age", PyVal.int 3)] = .ok .none ∧
    evaluate (cmpNode "name" "==" (.str "hello")) [("age", PyVal.int 3)] = .ok (.bool false) ∧
    evaluate (cmpNode "name" "<" (.int 1)) [("age", PyVal.int 3)] = .error .typeError :=
  missing_column_evaluation [("age", PyVal.int 3)] "name" "hello" 1 rfl

/-- Every leading-whitespace count is bounded by the list length. -/
theorem wsCount_le (l : List Char) : wsCount l ≤ l.length := by
  induction l with
  | nil => simp [wsCount]
  | cons c rest ih =>
    by_cases hc : isWsChar c <;> simp [wsCount, hc]
    omega

/-- A list whose leading-whitespace count is its whole length is all
whitespace. -/
theorem all_ws_of_wsCount_eq (l : List Char) (h : wsCount l = l.length) :
    ∀ c ∈ l, isWsChar c := by
  induction l with
  | nil => simp
  | cons c rest ih =>
    by_cases hc : isWsChar c
    · simp only [wsCount, hc, if_true, List.length_cons, Nat.add_right_cancel_iff] at h
      intro d hd
      rcases List.mem_cons.mp hd with rfl | hm
      · exact hc
      · exact ih h d hm
    · simp [wsCount, hc] at h

/-- The trailing-paren query is a syntax error (used by the parse-all
theorem below). -/
theorem trailing_paren_error : pyparse ".a == 1 )" = .syntaxError 1 9 ".a == 1 >!<)" := rfl

/-- C5: `parse` has parse-all semantics: whenever it succeeds, the grammar
match extends to the end of the input up to trailing whitespace (so
trailing characters the grammar cannot consume force a syntax error), and
concretely `.a == 1 )` is a syntax error at column 9, not a successful
parse of the valid prefix. -/
theorem parse_consumes_entire_input :
    (∀ (s : String) (ast : PNode), pyparse s = .ok ast →
      ∃ loc t, grammarRule s.data (s.data.length + 10) 0 = .ok (loc, t) ∧
        skipWs s.data loc = s.data.length ∧
        ∀ c ∈ s.data.drop loc, isWsChar c) ∧
    pyparse ".a == 1 )" = .syntaxError 1 9 ".a == 1 >!<)" := by
  refine ⟨?_, trailing_paren_error⟩
  intro s ast h
  have hp : pyparse s =
      (match grammarRule s.data (s.data.length + 10) 0 with
        | .ok (loc, t) =>
          if skipWs s.data loc = s.data.length then ParseOutcome.ok t
          else ParseOutcome.syntaxError (linenoOf s.data (skipWs s.data loc))
            (colOf s.data (skipWs s.data loc)) (markInputlineOf s.data (skipWs s.data loc))
        | .error e =>
          if e.crash then ParseOutcome.pythonError
          else ParseOutcome.syntaxError (linenoOf (if e.inInput then s.data else []) e.loc)
            (colOf (if e.inInput then s.data else []) e.loc)
            (markInputlineOf (if e.inInput then s.data else []) e.loc)) := rfl
  rw [hp] at h
  cases hg : grammarRule s.data (s.data.length + 10) 0 with
  | error e =>
    rw [hg] at h
    by_cases hc : e.crash <;> simp [hc] at h
  | ok r =>
    obtain ⟨loc, t⟩ := r
    rw [hg] at h
    by_cases hl : skipWs s.data loc = s.data.length
    · refine ⟨loc, t, rfl, hl, ?_⟩
      have h1 := wsCount_le (s.data.drop loc)
      have h2 : (s.data.drop loc).length = s.data.length - loc := List.length_drop _ _
      have h3 : wsCount (s.data.drop loc) = (s.data.drop loc).length := by
        unfold skipWs at hl
        omega
      exact all_ws_of_wsCount_eq _ h3
    · have hl2 : ¬skipWs s.data loc = s.length := hl
      simp [hl2] at h

/-- Witness for `parse_consumes_entire_input` at the query `.a == 1`. -/
theorem parse_consumes_entire_input_witness :
    ∃ loc t, grammarRule ".a == 1".data (".a == 1".data.length + 10) 0 = .ok (loc, t) ∧
      skipWs ".a == 1".data loc = ".a == 1".data.length ∧
      ∀ c ∈ ".a == 1".data.drop loc, isWsChar c :=
  parse_consumes_entire_input.1 ".a == 1"
    (.grammar (.expression (cmpNode "a" "==" (.int 1)))) rfl

/-- C7: `BinaryExpression.evaluate` evaluates both operands fully and
unconditionally: on two boolean operands `AND`, `OR` and `XOR` combine
them as conjunction, disjunction and inequality, and an error in the right
operand surfaces even when the left operand alone would already determine
the result (no short-circuiting). -/
theorem binary_no_short_circuit (row : Row) (l r : PNode) :
    (∀ a b : Bool, evaluate l row = .ok (.bool a) → evaluate r row = .ok (.bool b) →
      evaluate (.binaryExpression l (.boolBinaryOperator "AND") r) row = .ok (.bool (a && b)) ∧
      evaluate (.binaryExpression l (.boolBinaryOperator "OR") r) row = .ok (.bool (a || b)) ∧
      evaluate (.binaryExpression l (.boolBinaryOperator "XOR") r) row = .ok (.bool (xor a b))) ∧
    (∀ (b : Bool) (e : PyExn), evaluate l row = .ok (.bool b) → evaluate r row = .error e →
      evaluate (.binaryExpression l (.boolBinaryOperator "AND") r) row = .error e ∧
      evaluate (.binaryExpression l (.boolBinaryOperator "OR") r) row = .error e ∧
      evaluate (.binaryExpression l (.boolBinaryOperator "XOR") r) row = .error e) := by
  constructor
  · intro a b h1 h2
    refine ⟨?_, ?_, ?_⟩ <;>
      · simp only [evaluate, h1, h2, evalNoRow]
        cases a <;> cases b <;> rfl
  · intro b e h1 h2
    refine ⟨?_, ?_, ?_⟩ <;>
      · simp only [evaluate, h1, h2, evalNoRow]
        rfl

/-- Witness for `binary_no_short_circuit`: with row `{a: 1}`, the left
comparison `.a == 1` is true, the right comparison `.b < 2` raises a
`TypeError` (missing column compared with `<`), and the whole `AND` errors
rather than short-circuiting; on two true comparisons `OR` returns true. -/
theorem binary_no_short_circuit_witness :
    evaluate (.binaryExpression (cmpNode "a" "==" (.int 1)) (.boolBinaryOperator "AND")
      (cmpNode "b" "<" (.int 2))) [("a", PyVal.int 1)] = .error .typeError ∧
    evaluate (.binaryExpression (cmpNode "a" "==" (.int 1)) (.boolBinaryOperator "OR")
      (cmpNode "a" "==" (.int 1))) [("a", PyVal.int 1)] = .ok (.bool true) := by
  constructor
  · exact ((binary_no_short_circuit [("a", PyVal.int 1)] (cmpNode "a" "==" (.int 1))
      (cmpNode "b" "<" (.int 2))).2 true .typeError rfl rfl).1
  · exact ((binary_no_short_circuit [("a", PyVal.int 1)] (cmpNode "a" "==" (.int 1))
      (cmpNode "a" "==" (.int 1))).1 true true rfl rfl).2.1

/-- C8: parsing is a pure function of the query string: the same input
always yields the same outcome, and in particular two successful runs on
the same string yield (structurally) equal ASTs. -/
theorem parse_deterministic :
    (∀ s : String, pyparse s = pyparse s) ∧
    (∀ (s : String) (a₁ a₂ : PNode), pyparse s = .ok a₁ → pyparse s = .ok a₂ → a₁ = a₂) := by
  refine ⟨fun s => rfl, fun s a₁ a₂ h1 h2 => ?_⟩
  rw [h1] at h2
  exact ParseOutcome.ok.inj h2

/-- Witness for `parse_deterministic` at the query `.name == hello`. -/
theorem parse_deterministic_witness :
    (PNode.grammar (.expression (cmpNode "name" "==" (.str "hello")))) =
      (PNode.grammar (.expression (cmpNode "name" "==" (.str "hello")))) :=
  parse_deterministic.2 ".name == hello"
    (.grammar (.expression (cmpNode "name" "==" (.str "hello"))))
    (.grammar (.expression (cmpNode "name" "==" (.str "hello")))) rfl rfl

/-- `caselessKeyword` only ever returns the keyword it was asked for. -/
theorem caselessKeyword_ok_val (cs : List Char) (i : Nat) (kw : String) (p : Nat) (s : String)
    (h : caselessKeyword cs i kw = .ok (p, s)) : s = kw := by
  simp only [caselessKeyword] at h
  split at h
  · simp only [Except.ok.injEq, Prod.mk.injEq] at h
    exact h.2.symm
  · exact absurd h (by simp)

/-- `firstKeyword` only ever returns a keyword from its list. -/
theorem firstKeyword_mem (cs : List Char) (i : Nat) (l : List String) (p : Nat) (kw : String)
    (h : firstKeyword cs i l = .ok (p, kw)) : kw ∈ l := by
  induction l with
  | nil => simp [firstKeyword] at h
  | cons kw0 rest ih =>
    unfold firstKeyword at h
    cases hck : caselessKeyword cs i kw0 with
    | ok r =>
      rw [hck] at h
      obtain ⟨p2, s2⟩ := r
      have hs : s2 = kw0 := caselessKeyword_ok_val cs i kw0 p2 s2 hck
      simp only [Except.ok.injEq, Prod.mk.injEq] at h
      rw [← h.2, hs]
      exact List.mem_cons_self _ _
    | error e1 =>
      rw [hck] at h
      cases hr : firstKeyword cs i rest with
      | ok r2 =>
        rw [hr] at h
        simp only [Except.ok.injEq] at h
        exact List.mem_cons_of_mem _ (ih (by rw [hr, h]))
      | error e2 => rw [hr] at h; exact absurd h (by simp)

/-- C9: `NegateExpression.parse` succeeds exactly when its operator token
is a `BoolUnaryOperator` carrying `NOT` (keyword or `!` alias), raising
`ValueError` for any other token; and the grammar's `bool_unary_operator`
rule can only ever produce those two operators, so every parser-produced
`NegateExpression` passed this validation with the NOT operator. -/
theorem negate_operator_validated :
    (∀ (op e : PNode), (∃ n, NegateExpression_parse [op, e] = .ok n) ↔
      op = .boolUnaryOperator "NOT" ∨ op = .boolUnaryOperator "!") ∧
    (∀ e : PNode, NegateExpression_parse [.boolUnaryOperator "NOT", e] = .ok (.negateExpression e) ∧
      NegateExpression_parse [.boolUnaryOperator "!", e] = .ok (.negateExpression e)) ∧
    (∀ (cs : List Char) (i p : Nat) (n : PNode), boolUnaryOperatorTok cs i = .ok (p, n) →
      n = .boolUnaryOperator "NOT" ∨ n = .boolUnaryOperator "!") := by
  refine ⟨?_, ?_, ?_⟩
  · intro op e
    constructor
    · rintro ⟨n, hn⟩
      cases op <;> simp [NegateExpression_parse] at hn
      case boolUnaryOperator s =>
        by_cases hs : s = "NOT" ∨ s = "!"
        · rcases hs with rfl | rfl
          · exact Or.inl rfl
          · exact Or.inr rfl
        · simp [hs] at hn
    · rintro (rfl | rfl) <;> exact ⟨_, rfl⟩
  · intro e
    exact ⟨rfl, rfl⟩
  · intro cs i p n h
    unfold boolUnaryOperatorTok at h
    cases hk : firstKeyword cs i ["NOT", "!"] with
    | ok r =>
      rw [hk] at h
      simp only [Except.ok.injEq, Prod.mk.injEq] at h
      have hm : r.2 ∈ (["NOT", "!"] : List String) :=
        firstKeyword_mem cs i _ r.1 r.2 (by rw [hk])
      rcases List.mem_cons.mp hm with h2 | h2
      · exact Or.inl (by rw [← h.2, h2])
      · rcases List.mem_cons.mp h2 with h3 | h3
        · exact Or.inr (by rw [← h.2, h3])
        · simp at h3
    | error e1 => rw [hk] at h; exact absurd h (by simp)

/-- Witness for `negate_operator_validated`: the NOT operator is accepted,
and the operator token parsed from `NOT x` is the NOT keyword. -/
theorem negate_operator_validated_witness :
    (∃ n, NegateExpression_parse [.boolUnaryOperator "NOT", PNode.group []] = .ok n) ∧
    (PNode.boolUnaryOperator "NOT" = .boolUnaryOperator "NOT" ∨
      PNode.boolUnaryOperator "NOT" = .boolUnaryOperator "!") :=
  ⟨(negate_operator_validated.1 (.boolUnaryOperator "NOT") (PNode.group [])).mpr (Or.inl rfl),
    negate_operator_validated.2.2 "NOT x".data 0 3 (.boolUnaryOperator "NOT") rfl⟩

/-- C10: the standalone `exec_cmp_operator` and the method
`Comparison.apply` agree on every operator string and every pair of
operands, and both raise `ValueError` on any operator outside the six
comparison operators. -/
theorem cmp_operator_refinement :
    (∀ (op : String) (l r : PyVal), exec_cmp_operator op l r = Comparison_apply op l r) ∧
    (∀ (op : String) (l r : PyVal),
      op ∉ (["==", "!=", "<", "<=", ">", ">="] : List String) →
      exec_cmp_operator op l r = .error .valueError ∧
      Comparison_apply op l r = .error .valueError) := by
  refine ⟨fun op l r => rfl, fun op l r h => ?_⟩
  simp only [List.mem_cons, List.not_mem_nil, or_false, not_or] at h
  obtain ⟨h1, h2, h3, h4, h5, h6⟩ := h
  constructor <;> simp [exec_cmp_operator, Comparison_apply, h1, h2, h3, h4, h5, h6]

/-- Witness for `cmp_operator_refinement` at the unknown operator `===`. -/
theorem cmp_operator_refinement_witness :
    exec_cmp_operator "===" .none .none = .error .valueError ∧
    Comparison_apply "===" .none .none = .error .valueError :=
  cmp_operator_refinement.2 "===" .none .none (by decide)

end Csvpred
